import Mathlib

/-!
Verification of the LD2450 configuration command engine
(`src/ld2450_config.c`) against its specification.

The development shallowly embeds the C source: bytes are `Nat` values
(< 256 on real inputs, but nothing below depends on that bound), byte
buffers are `List Nat`, the ESP-IDF error type is an inductive
enumeration of the codes the file actually returns, and the stateful
coordinator/gate functions become pure functions over explicit state,
with the UART transport and the device's responses supplied as
explicit inputs.
-/

namespace LD2450

/-- The ESP-IDF `esp_err_t` values that appear in `ld2450_config.c`.
Distinct constructors model distinct numeric codes; the C file returns
exactly these. -/
inductive esp_err_t where
  | ESP_OK
  | ESP_FAIL
  | ESP_ERR_INVALID_ARG
  | ESP_ERR_INVALID_STATE
  | ESP_ERR_INVALID_SIZE
  | ESP_ERR_INVALID_RESPONSE
  | ESP_ERR_TIMEOUT
deriving DecidableEq, Repr

/-- Modelled from the spec: the configuration-family frame header
`FD FC FB FA` (§6 of the spec; the constant itself lives in the
repository's `ld2450_private.h`, which is not under `src/`). -/
def LD2450_CONFIG_FRAME_HEADER : List Nat := [0xFD, 0xFC, 0xFB, 0xFA]

/-- Modelled from the spec: the configuration-family frame footer
`04 03 02 01` (§6 of the spec; constant defined in the missing
`ld2450_private.h`). -/
def LD2450_CONFIG_FRAME_FOOTER : List Nat := [0x04, 0x03, 0x02, 0x01]

/-- Modelled from the spec: the telemetry (radar data) frame header
`AA FF 03 00` (§6 of the spec; constant defined in the missing
`ld2450_private.h`). -/
def LD2450_DATA_FRAME_HEADER : List Nat := [0xAA, 0xFF, 0x03, 0x00]

/-- Embedding of `ld2450_validate_ack` (ld2450_config.c lines 239-267).
`ack` is the byte buffer, `cmd` the 16-bit command word; `cmd % 256`
is the C expression `cmd & 0xFF`.  The `memcmp` of 4 bytes at `ack`
is `ack.take 4`; the `memcmp` of 4 bytes at `&ack[len - 4]` is
`ack.drop (ack.length - 4)`; byte reads `ack[i]` become `ack.getD i 0`
(all reads are made only when the length guard has passed, see
`ld2450_validate_ack_checked`). -/
def ld2450_validate_ack (ack : List Nat) (cmd : Nat) : esp_err_t :=
  if ack.length < 10 then
    .ESP_ERR_INVALID_SIZE
  else if ack.take 4 ≠ LD2450_CONFIG_FRAME_HEADER ∨
          ack.drop (ack.length - 4) ≠ LD2450_CONFIG_FRAME_FOOTER then
    .ESP_ERR_INVALID_RESPONSE
  else if ack.getD 6 0 ≠ cmd % 256 ∨ ack.getD 7 0 ≠ 0x01 then
    .ESP_ERR_INVALID_RESPONSE
  else if ack.getD 8 0 ≠ 0x00 ∨ ack.getD 9 0 ≠ 0x00 then
    .ESP_ERR_INVALID_RESPONSE
  else
    .ESP_OK

/-- A read of `n` bytes starting at offset `s`, returning `none` when the
read would go out of bounds.  Mirrors what the C `memcmp`/indexing
accesses of `ld2450_validate_ack` actually touch. -/
def readRange (l : List Nat) (s n : Nat) : Option (List Nat) :=
  if s + n ≤ l.length then some ((l.drop s).take n) else none

/-- A single-byte read, `none` when out of bounds. -/
def readByte (l : List Nat) (i : Nat) : Option Nat :=
  if i < l.length then some (l.getD i 0) else none

/-- `ld2450_validate_ack` with every memory access made explicit and
bounds-checked: the result is `none` exactly when the C code would read
out of bounds.  Used to state the memory-safety claim. -/
def ld2450_validate_ack_checked (ack : List Nat) (cmd : Nat) : Option esp_err_t :=
  if ack.length < 10 then
    some .ESP_ERR_INVALID_SIZE
  else
    match readRange ack 0 4, readRange ack (ack.length - 4) 4 with
    | some hdr, some ftr =>
      if hdr ≠ LD2450_CONFIG_FRAME_HEADER ∨ ftr ≠ LD2450_CONFIG_FRAME_FOOTER then
        some .ESP_ERR_INVALID_RESPONSE
      else
        match readByte ack 6, readByte ack 7 with
        | some b6, some b7 =>
          if b6 ≠ cmd % 256 ∨ b7 ≠ 0x01 then
            some .ESP_ERR_INVALID_RESPONSE
          else
            match readByte ack 8, readByte ack 9 with
            | some b8, some b9 =>
              if b8 ≠ 0x00 ∨ b9 ≠ 0x00 then some .ESP_ERR_INVALID_RESPONSE
              else some .ESP_OK
            | _, _ => none
        | _, _ => none
    | _, _ => none

/-- The spec's abstract protocol-error taxonomy for ACK validation
(§4.1 of the spec). -/
inductive ProtocolError where
  | TooShort
  | FramingMismatch
  | UnexpectedEcho
  | DeviceRejected
deriving DecidableEq, Repr

/-- Modelled from the spec (§4.1, `validate`): check, in order,
minimum length; configuration-family header; configuration-family
footer; command echo against the low byte of the expected command;
the fixed response marker; then the 2-byte little-endian status word
against zero.  The minimum valid frame length is the 10 bytes of
envelope the code guards (header 4 + length 2 + command echo 2 +
status 2). -/
def validate_spec (bytes : List Nat) (expected_command : Nat) :
    Except ProtocolError Unit :=
  if bytes.length < 10 then .error .TooShort
  else if bytes.take 4 ≠ LD2450_CONFIG_FRAME_HEADER then .error .FramingMismatch
  else if bytes.drop (bytes.length - 4) ≠ LD2450_CONFIG_FRAME_FOOTER then
    .error .FramingMismatch
  else if bytes.getD 6 0 ≠ expected_command % 256 then .error .UnexpectedEcho
  else if bytes.getD 7 0 ≠ 0x01 then .error .UnexpectedEcho
  else if bytes.getD 8 0 + 256 * bytes.getD 9 0 ≠ 0 then .error .DeviceRejected
  else .ok ()

/-- How the C file maps the spec's error taxonomy onto `esp_err_t`:
`TooShort` surfaces as `ESP_ERR_INVALID_SIZE`, every other validation
failure as `ESP_ERR_INVALID_RESPONSE`. -/
def espErrOfValidate : Except ProtocolError Unit → esp_err_t
  | .ok _ => .ESP_OK
  | .error .TooShort => .ESP_ERR_INVALID_SIZE
  | .error _ => .ESP_ERR_INVALID_RESPONSE

/-- One iteration of the ACK-await loop body of `ld2450_send_command`
(ld2450_config.c lines 150-196) processing one newly arrived chunk of
bytes.  `cap` is `LD2450_ACK_BUFFER_SIZE` (defined in the repository's
missing `ld2450_private.h`; kept as a parameter), `buf` the bytes
accumulated so far (`idx = buf.length`), `found_header` the loop flag.
The UART read takes at most `cap - buf.length` bytes of the chunk
(`MIN(event.size, LD2450_ACK_BUFFER_SIZE - idx)`).  Returns
`(some candidate, _, _)` when the footer check fires (the `break`),
otherwise `(none, buf, found_header)` updated:
* if the header is not yet confirmed and at least 4 bytes are
  accumulated and the first 4 equal the telemetry header, the whole
  buffer is discarded (`idx = 0; continue`);
* otherwise the bytes are kept, the configuration header is looked for
  at offset 0, and once the header is confirmed and at least 12 bytes
  are present the last 4 bytes are compared against the footer. -/
def resyncProcessChunk (cap : Nat) (buf : List Nat) (found_header : Bool)
    (chunk : List Nat) : Option (List Nat) × List Nat × Bool :=
  let newData := chunk.take (cap - buf.length)
  if newData.length = 0 then (none, buf, found_header)
  else
    let combined := buf ++ newData
    if found_header = false ∧ 4 ≤ combined.length ∧
        combined.take 4 = LD2450_DATA_FRAME_HEADER then
      (none, [], false)
    else
      let fh := found_header ∨
        (4 ≤ combined.length ∧ combined.take 4 = LD2450_CONFIG_FRAME_HEADER)
      if fh ∧ 12 ≤ combined.length ∧
          combined.drop (combined.length - 4) = LD2450_CONFIG_FRAME_FOOTER then
        (some combined, combined, true)
      else
        (none, combined, decide fh)

/-- The ACK-await loop of `ld2450_send_command` (ld2450_config.c lines
148-199).  Time is modelled by `fuel`: each loop iteration (one
10 ms-bounded queue wait) consumes one unit, so `fuel` is the number of
iterations the deadline `timeout_ms` allows.  `chunks` is the sequence
of UART-data events still to arrive, one chunk per event.  Returns
`(true, candidate)` when a complete candidate frame was assembled
(header and footer found), `(false, partial)` when the deadline lapses
(`fuel = 0`) or the accumulation buffer is full before a candidate is
found. -/
def ld2450_ack_await (cap : Nat) :
    Nat → List (List Nat) → List Nat → Bool → Bool × List Nat
  | 0, _, buf, _ => (false, buf)
  | fuel + 1, chunks, buf, fh =>
    if cap ≤ buf.length then (false, buf)
    else
      match chunks with
      | [] => ld2450_ack_await cap fuel [] buf fh
      | c :: rest =>
        match resyncProcessChunk cap buf fh c with
        | (some cand, _, _) => (true, cand)
        | (none, buf', fh') => ld2450_ack_await cap fuel rest buf' fh'

/-- Result of one `ld2450_send_command` call: the returned error code,
the bytes copied to the caller's `ack_buffer` (with `*ack_len`), the
session's diagnostic `error_buffer` after the call, and whether the
mutex is still held when the function returns (it never is: every exit
path releases it). -/
structure SendCmdResult where
  err : esp_err_t
  ack_out : Option (List Nat)
  error_buffer : List Nat
  mutex_held : Bool
deriving DecidableEq, Repr

/-- Embedding of `ld2450_send_command` (ld2450_config.c lines 100-229).
`lock_ok` models whether `xSemaphoreTake` succeeds within
`pdMS_TO_TICKS(timeout_ms)`; `write_ok` whether `uart_write_bytes`
wrote the whole packet; `chunks` the UART byte stream arriving after
the flush, one chunk per queued UART event; `err_cap` is
`LD2450_ERROR_BUFFER_SIZE` (from the missing `ld2450_private.h`, kept
as a parameter) and `prev_error` the diagnostic buffer's previous
content.  On lock failure the function returns `ESP_ERR_TIMEOUT`
without touching anything; on short write `ESP_FAIL`; when the await
loop ends without a candidate it stores the partial bytes (truncated
to `err_cap`) in the diagnostic buffer and returns `ESP_ERR_TIMEOUT`;
otherwise it copies the candidate out and returns the validator's
verdict. -/
def ld2450_send_command (lock_ok write_ok : Bool) (cap err_cap fuel : Nat)
    (chunks : List (List Nat)) (cmd : Nat) (prev_error : List Nat) :
    SendCmdResult :=
  if lock_ok = false then
    ⟨.ESP_ERR_TIMEOUT, none, prev_error, false⟩
  else if write_ok = false then
    ⟨.ESP_FAIL, none, prev_error, false⟩
  else
    match ld2450_ack_await cap fuel chunks [] false with
    | (false, partial_bytes) =>
      ⟨.ESP_ERR_TIMEOUT, none, partial_bytes.take err_cap, false⟩
    | (true, cand) =>
      ⟨ld2450_validate_ack cand cmd, some cand, prev_error, false⟩

/-- The command words used by `ld2450_config.c` (`ld2450_cmd_t`,
declared in the repository's headers; the numeric values are irrelevant
to the gate-level claims, so the commands are kept abstract). -/
inductive ld2450_cmd_t where
  | ENABLE_CONFIG
  | END_CONFIG
  | SINGLE_TARGET
  | MULTI_TARGET
  | QUERY_TARGET_MODE
  | SET_BAUD_RATE
  | RESTORE_FACTORY
  | RESTART_MODULE
  | SET_BLUETOOTH
  | GET_MAC_ADDRESS
  | SET_REGION
  | QUERY_REGION
  | READ_FW_VERSION
deriving DecidableEq, Repr

/-- The delays `ld2450_config.c` performs, named by call site: the 50 ms
settle after setting the config-mode intent flag (line 293), the
`LD2450_RESTART_TIMEOUT_MS` settle after a successful restart
(line 629), the extra 100 ms settle before the firmware-version
attempts (line 458), and the 200 ms backoff between firmware-version
attempts (line 501). -/
inductive DelayKind where
  | configEnterSettle
  | restartSettle
  | fwExtraSettle
  | fwRetryBackoff
deriving DecidableEq, Repr

/-- Observable actions of the gate layer, in program order: a command
transaction put on the wire (with the timeout passed to
`ld2450_send_command`), a task delay, or a UART input flush. -/
inductive Action where
  | send (c : ld2450_cmd_t) (timeout_ms : Nat)
  | delay (k : DelayKind)
  | flush
deriving DecidableEq, Repr

/-- `LD2450_CONFIG_TIMEOUT_MS`.  The constant lives in the repository's
missing header; its value, 3000 ms, is fixed by the source comment at
line 473 ("a shorter timeout (1 second instead of 3)"). -/
def LD2450_CONFIG_TIMEOUT_MS : Nat := 3000

/-- The per-session state the gate layer mutates: the
`in_config_mode` flag, plus the trace of actions performed so far
(the trace is the observation the claims are stated against). -/
structure GateState where
  in_config_mode : Bool
  trace : List Action
deriving DecidableEq, Repr

/-- The session state at driver initialization: normal mode, nothing on
the wire. -/
def initialState : GateState := ⟨false, []⟩

/-- The command transactions on the wire, in order, extracted from a
trace. -/
def sendsOf (tr : List Action) : List ld2450_cmd_t :=
  tr.filterMap fun a => match a with
    | .send c _ => some c
    | _ => none

/-- The command transactions a state has put on the wire so far. -/
def sends (st : GateState) : List ld2450_cmd_t := sendsOf st.trace

/-- The device/transport oracle: `respond n` is the outcome of the
`n`-th command transaction of the session (the `esp_err_t` that
`ld2450_send_command` returns for it, and the ACK bytes it copies
out). -/
structure Device where
  respond : Nat → esp_err_t × List Nat

/-- Embedding of `ld2450_enter_config_mode` (ld2450_config.c lines
276-312): no-op success when already in config mode; otherwise set the
intent flag, delay, flush, run the ENABLE_CONFIG transaction, and
revert the flag when the transaction fails. -/
def ld2450_enter_config_mode (dev : Device) (st : GateState) :
    esp_err_t × GateState :=
  if st.in_config_mode then (.ESP_OK, st)
  else
    let r := (dev.respond (sends st).length).1
    let tr := st.trace ++ [.delay .configEnterSettle, .flush,
      .send .ENABLE_CONFIG LD2450_CONFIG_TIMEOUT_MS]
    if r = .ESP_OK then (r, ⟨true, tr⟩) else (r, ⟨false, tr⟩)

/-- Embedding of `ld2450_exit_config_mode` (ld2450_config.c lines
322-346): no-op success when not in config mode; otherwise run the
END_CONFIG transaction and clear the flag only on success. -/
def ld2450_exit_config_mode (dev : Device) (st : GateState) :
    esp_err_t × GateState :=
  if st.in_config_mode = false then (.ESP_OK, st)
  else
    let r := (dev.respond (sends st).length).1
    let tr := st.trace ++ [.send .END_CONFIG LD2450_CONFIG_TIMEOUT_MS]
    if r = .ESP_OK then (r, ⟨false, tr⟩) else (r, ⟨true, tr⟩)

/-- `ld2450_tracking_mode_t`. -/
inductive ld2450_tracking_mode_t where
  | LD2450_MODE_SINGLE_TARGET
  | LD2450_MODE_MULTI_TARGET
deriving DecidableEq, Repr

/-- Embedding of `ld2450_set_tracking_mode` (ld2450_config.c lines
354-380): enter; on enter failure return immediately; otherwise run
the SINGLE_TARGET/MULTI_TARGET transaction, always exit, and return
the body's error if any, else the exit's result. -/
def ld2450_set_tracking_mode (dev : Device) (mode : ld2450_tracking_mode_t)
    (st : GateState) : esp_err_t × GateState :=
  let (r, st1) := ld2450_enter_config_mode dev st
  if r ≠ .ESP_OK then (r, st1)
  else
    let cmd := if mode = .LD2450_MODE_SINGLE_TARGET then
      ld2450_cmd_t.SINGLE_TARGET else ld2450_cmd_t.MULTI_TARGET
    let r2 := (dev.respond (sends st1).length).1
    let st2 : GateState :=
      ⟨st1.in_config_mode, st1.trace ++ [.send cmd LD2450_CONFIG_TIMEOUT_MS]⟩
    let (r3, st3) := ld2450_exit_config_mode dev st2
    (if r2 ≠ .ESP_OK then r2 else r3, st3)

/-- Embedding of `ld2450_restart_module` (ld2450_config.c lines
606-641): enter; on enter failure return immediately; otherwise run
the RESTART_MODULE transaction.  On success wait the restart settle
delay and force the mode flag to NORMAL locally, with no END_CONFIG
exchange; on failure attempt a normal exit (whose result is discarded)
and report the restart failure. -/
def ld2450_restart_module (dev : Device) (st : GateState) :
    esp_err_t × GateState :=
  let (r, st1) := ld2450_enter_config_mode dev st
  if r ≠ .ESP_OK then (r, st1)
  else
    let r2 := (dev.respond (sends st1).length).1
    let st2 : GateState :=
      ⟨st1.in_config_mode,
        st1.trace ++ [.send .RESTART_MODULE LD2450_CONFIG_TIMEOUT_MS]⟩
    if r2 = .ESP_OK then
      (.ESP_OK, ⟨false, st2.trace ++ [.delay .restartSettle]⟩)
    else
      let (_r3, st3) := ld2450_exit_config_mode dev st2
      (r2, st3)

/-- Decimal digits of `n`, most significant first, as characters; empty
for `n = 0`.  The first argument is fuel (any value larger than the
digit count works; callers pass `n + 1`). -/
def natDecimalAux : Nat → Nat → List Char
  | 0, _ => []
  | fuel + 1, n =>
    if n = 0 then []
    else natDecimalAux fuel (n / 10) ++ [Char.ofNat (48 + n % 10)]

/-- Decimal rendering of a natural number (the behaviour of C's
`%u`/`%lu`). -/
def natDecimal (n : Nat) : String :=
  if n = 0 then "0" else String.mk (natDecimalAux (n + 1) n)

/-- Zero-pad a string on the left to width `w` (the behaviour of C's
`%0Nu`). -/
def padZeroLeft (w : Nat) (s : String) : String :=
  String.mk (List.replicate (w - s.length) '0') ++ s

/-- The `snprintf` format of ld2450_config.c lines 490-494:
`"V%u.%02u.%08lu"` applied to the high byte of the main version, the
low byte of the main version, and the sub-version (printed in
decimal).  The `version_string` field's capacity is declared in the
repository's missing `ld2450.h`; the string is modelled untruncated,
per the spec's "host-side formatted as V<major>.<minor>.<sub>". -/
def formatVersionString (main_version sub_version : Nat) : String :=
  "V" ++ natDecimal (main_version / 256 % 256) ++ "." ++
    padZeroLeft 2 (natDecimal (main_version % 256)) ++ "." ++
    padZeroLeft 8 (natDecimal sub_version)

/-- `ld2450_firmware_version_t`: 16-bit main version, 32-bit
sub-version, and the formatted version string. -/
structure ld2450_firmware_version_t where
  main_version : Nat
  sub_version : Nat
  version_string : String
deriving DecidableEq, Repr

/-- The firmware-version parse of ld2450_config.c lines 478-494: main
version little-endian at offsets 12-13, sub-version little-endian at
offsets 14-17, then the formatted string. -/
def parse_fw_version (ack : List Nat) : ld2450_firmware_version_t :=
  let main := ack.getD 12 0 + 256 * ack.getD 13 0
  let sub := ack.getD 14 0 + 256 * ack.getD 15 0 +
    65536 * ack.getD 16 0 + 16777216 * ack.getD 17 0
  ⟨main, sub, formatVersionString main sub⟩

/-- The retry loop of `ld2450_get_firmware_version` (ld2450_config.c
lines 470-505), with `n` attempts remaining.  Each attempt runs the
READ_FW_VERSION transaction with a 1000 ms timeout; an attempt whose
transaction succeeds with at least 22 ACK bytes parses the version and
breaks the loop; otherwise the loop delays, flushes, and retries.
Returns the last attempt's error, the parsed version if any, and the
updated state.  (The `n = 0` base case is never reached: the function
always enters with 3 attempts.) -/
def fw_attempts (dev : Device) (st : GateState) :
    Nat → esp_err_t × Option ld2450_firmware_version_t × GateState
  | 0 => (.ESP_OK, none, st)
  | k + 1 =>
    let (r, ack) := dev.respond (sends st).length
    let st1 : GateState :=
      ⟨st.in_config_mode, st.trace ++ [.send .READ_FW_VERSION 1000]⟩
    if r = .ESP_OK ∧ 22 ≤ ack.length then
      (.ESP_OK, some (parse_fw_version ack), st1)
    else
      let st2 : GateState :=
        ⟨st1.in_config_mode, st1.trace ++ [.delay .fwRetryBackoff, .flush]⟩
      if k = 0 then (r, none, st2)
      else fw_attempts dev st2 k

/-- Embedding of `ld2450_get_firmware_version` (ld2450_config.c lines
440-517): enter; on enter failure return immediately; otherwise an
extra settle delay and input flush, then up to 3 READ_FW_VERSION
attempts; if the last attempt's error is non-success it is collapsed
to `ESP_ERR_INVALID_RESPONSE`; finally exit, reporting the first
non-success of body and exit. -/
def ld2450_get_firmware_version (dev : Device) (st : GateState) :
    esp_err_t × Option ld2450_firmware_version_t × GateState :=
  let (r, st1) := ld2450_enter_config_mode dev st
  if r ≠ .ESP_OK then (r, none, st1)
  else
    let st1' : GateState :=
      ⟨st1.in_config_mode, st1.trace ++ [.delay .fwExtraSettle, .flush]⟩
    let (r2, ver, st2) := fw_attempts dev st1' 3
    let r2' := if r2 ≠ .ESP_OK then esp_err_t.ESP_ERR_INVALID_RESPONSE else r2
    let (r3, st3) := ld2450_exit_config_mode dev st2
    (if r2' ≠ .ESP_OK then r2' else r3, ver, st3)

/-- Calls into the config-mode gate: an `ld2450_enter_config_mode` call
or an `ld2450_exit_config_mode` call. -/
inductive CallEv where
  | enterCall
  | exitCall
deriving DecidableEq, Repr

/-- Run a sequence of gate calls against a device, threading the
session state and discarding the returned error codes. -/
def runCalls (dev : Device) : List CallEv → GateState → GateState
  | [], st => st
  | .enterCall :: rest, st =>
    runCalls dev rest (ld2450_enter_config_mode dev st).2
  | .exitCall :: rest, st =>
    runCalls dev rest (ld2450_exit_config_mode dev st).2

/-- The device acknowledged an on-the-wire transaction carrying command
`c`: some `n`-th transaction of the session sent `c` and the device's
response to it was `ESP_OK`. -/
def ackedSend (dev : Device) (st : GateState) (c : ld2450_cmd_t) : Prop :=
  ∃ n, (sends st)[n]? = some c ∧ (dev.respond n).1 = .ESP_OK

/-- The config-mode gate's acknowledgment invariant: the state flag
claims CONFIGURING only if the device acknowledged an ENABLE_CONFIG
transaction, and claims NORMAL only if the device acknowledged an
END_CONFIG transaction or no ENABLE_CONFIG transaction was ever
acknowledged. -/
def gateInv (dev : Device) (st : GateState) : Prop :=
  (st.in_config_mode = true → ackedSend dev st .ENABLE_CONFIG) ∧
  (st.in_config_mode = false →
    (ackedSend dev st .END_CONFIG ∨ ¬ ackedSend dev st .ENABLE_CONFIG))

/-- A well-formed 14-byte ACK frame for command word `0x01FF`
(header, length `02 00`, echo `FF 01`, status `00 00`, footer),
used as a concrete test vector. -/
def goodAck : List Nat :=
  [0xFD, 0xFC, 0xFB, 0xFA, 0x02, 0x00, 0xFF, 0x01, 0x00, 0x00,
   0x04, 0x03, 0x02, 0x01]

/-- A complete telemetry frame (header `AA FF 03 00`, opaque body,
footer `55 CC`), used as a concrete test vector. -/
def telemetryFrame : List Nat := [0xAA, 0xFF, 0x03, 0x00, 0x55, 0xCC]

/-- A 22-byte firmware-version ACK whose main-version bytes (offsets
12-13) are `01 02` and sub-version bytes (offsets 14-17) are
`16 24 06 22`, used as a concrete test vector. -/
def fwAck : List Nat :=
  [0xFD, 0xFC, 0xFB, 0xFA, 0x0C, 0x00, 0xA0, 0x01, 0x00, 0x00, 0x00, 0x00,
   0x01, 0x02, 0x16, 0x24, 0x06, 0x22, 0x04, 0x03, 0x02, 0x01]

/-- A device that times out on the session's transactions 1 and 2 (the
first two firmware-version attempts when transaction 0 is the
ENABLE_CONFIG exchange), answers transaction 3 with a valid
firmware-version ACK, and acknowledges everything else. -/
def devFw : Device := ⟨fun n =>
  match n with
  | 1 => (.ESP_ERR_TIMEOUT, [])
  | 2 => (.ESP_ERR_TIMEOUT, [])
  | 3 => (.ESP_OK, fwAck)
  | _ => (.ESP_OK, [])⟩

/-- A device that acknowledges every transaction. -/
def devAllOk : Device := ⟨fun _ => (.ESP_OK, [])⟩

/-! ## Helper lemmas -/

theorem getD_drop (l : List Nat) (i j d : Nat) :
    (l.drop i).getD j d = l.getD (i + j) d := by
  simp [List.getD_eq_getElem?_getD, List.getElem?_drop]

theorem take_drop_last4 (l : List Nat) :
    (l.drop (l.length - 4)).take 4 = l.drop (l.length - 4) := by
  apply List.take_of_length_le
  simp only [List.length_drop]
  omega

theorem foot_getD (l : List Nat)
    (h : l.drop (l.length - 4) = LD2450_CONFIG_FRAME_FOOTER) (j : Nat) :
    l.getD (l.length - 4 + j) 0 = LD2450_CONFIG_FRAME_FOOTER.getD j 0 := by
  have hd := getD_drop l (l.length - 4) j 0
  rw [h] at hd
  exact hd.symm

/-- Everything a successful `ld2450_validate_ack` run establishes about
its buffer, including the non-obvious length bound: the footer bytes
would collide with the marker/status checks on any buffer of length
10 to 13, so success forces at least 14 bytes. -/
theorem validate_ok_facts (ack : List Nat) (cmd : Nat)
    (h : ld2450_validate_ack ack cmd = .ESP_OK) :
    14 ≤ ack.length ∧ ack.take 4 = LD2450_CONFIG_FRAME_HEADER ∧
    ack.drop (ack.length - 4) = LD2450_CONFIG_FRAME_FOOTER ∧
    ack.getD 6 0 = cmd % 256 ∧ ack.getD 7 0 = 0x01 ∧
    ack.getD 8 0 = 0x00 ∧ ack.getD 9 0 = 0x00 := by
  unfold ld2450_validate_ack at h
  split_ifs at h with h1 h2 h3 h4
  all_goals cases h
  · push_neg at h2 h3 h4
    obtain ⟨hhdr, hftr⟩ := h2
    obtain ⟨h6, h7⟩ := h3
    obtain ⟨h8, h9⟩ := h4
    refine ⟨?_, hhdr, hftr, h6, h7, h8, h9⟩
    by_contra hlt
    have hcases : ack.length = 10 ∨ ack.length = 11 ∨ ack.length = 12 ∨
        ack.length = 13 := by omega
    rcases hcases with hl | hl | hl | hl
    · have := foot_getD ack hftr 1
      rw [hl] at this
      norm_num [LD2450_CONFIG_FRAME_FOOTER] at this
      simp only [List.getD_eq_getElem?_getD] at h7
      omega
    · have := foot_getD ack hftr 0
      rw [hl] at this
      norm_num [LD2450_CONFIG_FRAME_FOOTER] at this
      simp only [List.getD_eq_getElem?_getD] at h7
      omega
    · have := foot_getD ack hftr 0
      rw [hl] at this
      norm_num [LD2450_CONFIG_FRAME_FOOTER] at this
      simp only [List.getD_eq_getElem?_getD] at h8
      omega
    · have := foot_getD ack hftr 0
      rw [hl] at this
      norm_num [LD2450_CONFIG_FRAME_FOOTER] at this
      simp only [List.getD_eq_getElem?_getD] at h9
      omega

/-! ## Claim theorems -/

/-- C2: for every byte buffer and expected command, `ld2450_validate_ack`
behaves exactly as the spec's ordered check sequence — too-short
(surfaced as `ESP_ERR_INVALID_SIZE`), then framing (header and footer),
then echo and response marker, then the status word, each failure
surfaced through the code's mapping onto `esp_err_t`, success
otherwise. -/
theorem c2_validate_refines_spec (bytes : List Nat) (cmd : Nat) :
    ld2450_validate_ack bytes cmd = espErrOfValidate (validate_spec bytes cmd) := by
  unfold ld2450_validate_ack validate_spec
  split_ifs <;> simp_all [espErrOfValidate]

/-- C5: `ld2450_validate_ack` never reads out of bounds — the
bounds-instrumented `ld2450_validate_ack_checked` always returns
`some` and agrees with it — and it never returns success on a
malformed buffer: a too-short buffer, wrong header, wrong footer,
mismatched echo byte, or nonzero status word always yields an error. -/
theorem c5_validate_safe (ack : List Nat) (cmd : Nat) :
    ld2450_validate_ack_checked ack cmd = some (ld2450_validate_ack ack cmd) ∧
    ((ack.length < 10 ∨ ack.take 4 ≠ LD2450_CONFIG_FRAME_HEADER ∨
      ack.drop (ack.length - 4) ≠ LD2450_CONFIG_FRAME_FOOTER ∨
      ack.getD 6 0 ≠ cmd % 256 ∨
      ack.getD 8 0 + 256 * ack.getD 9 0 ≠ 0) →
      ld2450_validate_ack ack cmd ≠ .ESP_OK) := by
  constructor
  · by_cases h1 : ack.length < 10
    · simp [ld2450_validate_ack_checked, ld2450_validate_ack, h1]
    · have hb1 : 0 + 4 ≤ ack.length := by omega
      have hb2 : ack.length - 4 + 4 ≤ ack.length := by omega
      have hb6 : 6 < ack.length := by omega
      have hb7 : 7 < ack.length := by omega
      have hb8 : 8 < ack.length := by omega
      have hb9 : 9 < ack.length := by omega
      simp only [ld2450_validate_ack_checked, ld2450_validate_ack, readRange,
        readByte, h1, if_neg, if_false, hb1, hb2, hb6, hb7, hb8, hb9, if_true,
        if_pos, List.drop_zero, take_drop_last4]
      split_ifs <;> rfl
  · intro hmal hok
    have hf := validate_ok_facts ack cmd hok
    obtain ⟨hlen, hhdr, hftr, h6, h7, h8, h9⟩ := hf
    rcases hmal with hm | hm | hm | hm | hm
    · omega
    · exact hm hhdr
    · exact hm hftr
    · exact hm h6
    · omega

/-- C5 witness: the empty buffer is rejected in bounds. -/
theorem c5_witness :
    ld2450_validate_ack_checked [] 0 = some (ld2450_validate_ack [] 0) ∧
    ld2450_validate_ack [] 0 ≠ .ESP_OK :=
  ⟨(c5_validate_safe [] 0).1, (c5_validate_safe [] 0).2 (Or.inl (by decide))⟩

/-- C10: `ld2450_validate_ack` returns success only on buffers of at
least 14 bytes, although its explicit length guard only requires 10:
for lengths 10 through 13 the required footer overlaps the offsets
checked as marker byte or status word, so no shorter buffer passes
every check. -/
theorem c10_validate_ok_needs_14_bytes (ack : List Nat) (cmd : Nat)
    (h : ld2450_validate_ack ack cmd = .ESP_OK) : 14 ≤ ack.length :=
  (validate_ok_facts ack cmd h).1

/-- C10 witness: a well-formed 14-byte ACK validates, and the bound is
attained by it. -/
theorem c10_witness : 14 ≤ goodAck.length :=
  c10_validate_ok_needs_14_bytes goodAck 0x1FF (by decide)

/-- When the ACK-await loop ends without a complete candidate,
`ld2450_send_command` stores the partial bytes (truncated to the
diagnostic capacity) and returns `ESP_ERR_TIMEOUT` with the lock
released. -/
theorem send_command_on_timeout (cap err_cap fuel : Nat)
    (chunks : List (List Nat)) (cmd : Nat) (prev : List Nat)
    (h : (ld2450_ack_await cap fuel chunks [] false).1 = false) :
    ld2450_send_command true true cap err_cap fuel chunks cmd prev =
      ⟨.ESP_ERR_TIMEOUT, none,
       (ld2450_ack_await cap fuel chunks [] false).2.take err_cap, false⟩ := by
  have hsplit : ld2450_ack_await cap fuel chunks [] false =
      (false, (ld2450_ack_await cap fuel chunks [] false).2) := by
    rcases he : ld2450_ack_await cap fuel chunks [] false with ⟨b, p⟩
    rw [he] at h
    simp only at h
    subst h
    rfl
  unfold ld2450_send_command
  rw [hsplit]
  rfl

/-- C6: whenever the ACK-await loop ends without a complete candidate
frame (deadline elapsed or buffer capacity reached), the partial bytes
collected are copied into the session's diagnostic buffer, overwriting
any prior capture and truncated to its capacity, the lock is released,
and the transaction returns `ESP_ERR_TIMEOUT`. -/
theorem c6_timeout_records_diagnostics (cap err_cap fuel : Nat)
    (chunks : List (List Nat)) (cmd : Nat) (prev : List Nat)
    (h : (ld2450_ack_await cap fuel chunks [] false).1 = false) :
    ld2450_send_command true true cap err_cap fuel chunks cmd prev =
      ⟨.ESP_ERR_TIMEOUT, none,
       (ld2450_ack_await cap fuel chunks [] false).2.take err_cap, false⟩ :=
  send_command_on_timeout cap err_cap fuel chunks cmd prev h

/-- C6 witness: a run with no input at all times out, overwrites the
prior capture with the empty partial buffer, and releases the lock. -/
theorem c6_witness :
    ld2450_send_command true true 4 2 1 [] 0 [9, 9, 9] =
      ⟨.ESP_ERR_TIMEOUT, none,
       (ld2450_ack_await 4 1 [] [] false).2.take 2, false⟩ :=
  c6_timeout_records_diagnostics 4 2 1 [] 0 [9, 9, 9] (by decide)

/-- C9 counterexample: the claimed distinguishability fails — the
lock-acquisition failure and the no-complete-ACK failure return the
same `esp_err_t` value, `ESP_ERR_TIMEOUT`, on concrete inputs. -/
theorem c9_counterexample :
    (ld2450_send_command false true 64 16 4 [[0xFD]] 0x1FF []).err =
      .ESP_ERR_TIMEOUT ∧
    (ld2450_send_command true true 64 16 4 [[0xFD]] 0x1FF []).err =
      .ESP_ERR_TIMEOUT ∧
    (ld2450_send_command false true 64 16 4 [[0xFD]] 0x1FF []).err =
      (ld2450_send_command true true 64 16 4 [[0xFD]] 0x1FF []).err := by
  decide

/-- C9 (amended): when the session lock is not acquired within the
bounded wait, the transaction fails with `ESP_ERR_TIMEOUT` without
touching the session — which is the same error value the
protocol-timeout path returns, not a distinct Busy kind. -/
theorem c9_busy_returns_esp_err_timeout (write_ok : Bool)
    (cap err_cap fuel : Nat) (chunks : List (List Nat)) (cmd : Nat)
    (prev : List Nat) :
    ld2450_send_command false write_ok cap err_cap fuel chunks cmd prev =
      ⟨.ESP_ERR_TIMEOUT, none, prev, false⟩ ∧
    ((ld2450_ack_await cap fuel chunks [] false).1 = false →
      (ld2450_send_command true true cap err_cap fuel chunks cmd prev).err =
        .ESP_ERR_TIMEOUT) := by
  refine ⟨rfl, fun h => ?_⟩
  rw [send_command_on_timeout cap err_cap fuel chunks cmd prev h]

/-- C9 witness for the amended claim, at concrete inputs. -/
theorem c9_witness :
    ld2450_send_command false true 64 16 4 [] 0x1FF [7] =
      ⟨.ESP_ERR_TIMEOUT, none, [7], false⟩ ∧
    (ld2450_send_command true true 64 16 4 [] 0x1FF [7]).err =
      .ESP_ERR_TIMEOUT :=
  ⟨(c9_busy_returns_esp_err_timeout true 64 16 4 [] 0x1FF [7]).1,
   (c9_busy_returns_esp_err_timeout true 64 16 4 [] 0x1FF [7]).2 (by decide)⟩

/-- A chunk that is a whole telemetry frame, arriving while the buffer
is empty and the configuration header unconfirmed, is discarded whole:
the accumulation buffer is reset to empty. -/
theorem resync_telemetry_reset (cap : Nat) (tf : List Nat)
    (h1 : tf.take 4 = LD2450_DATA_FRAME_HEADER) (h2 : 4 ≤ tf.length)
    (h3 : tf.length ≤ cap) :
    resyncProcessChunk cap [] false tf = (none, [], false) := by
  have ht : tf.take cap = tf := List.take_of_length_le h3
  simp only [resyncProcessChunk, List.length_nil, Nat.sub_zero,
    List.nil_append, ht]
  rw [if_neg (show ¬ tf.length = 0 by omega)]
  rw [if_pos ⟨trivial, h2, h1⟩]

/-- A chunk that is a whole well-framed configuration ACK, arriving on
an empty buffer, is declared a complete candidate in one step. -/
theorem resync_ack_complete (cap : Nat) (ack : List Nat)
    (hh : ack.take 4 = LD2450_CONFIG_FRAME_HEADER)
    (hf : ack.drop (ack.length - 4) = LD2450_CONFIG_FRAME_FOOTER)
    (hl : 12 ≤ ack.length) (hc : ack.length ≤ cap) :
    resyncProcessChunk cap [] false ack = (some ack, ack, true) := by
  have ht : ack.take cap = ack := List.take_of_length_le hc
  simp only [resyncProcessChunk, List.length_nil, Nat.sub_zero,
    List.nil_append, ht]
  rw [if_neg (show ¬ ack.length = 0 by omega)]
  rw [if_neg (show ¬ (True ∧ 4 ≤ ack.length ∧
      ack.take 4 = LD2450_DATA_FRAME_HEADER) by
    rintro ⟨-, -, hd⟩
    rw [hh] at hd
    exact absurd hd (by decide))]
  rw [if_pos ⟨Or.inr ⟨by omega, hh⟩, hl, hf⟩]

/-- Driving the ACK-await loop over any number of whole telemetry
frames followed by one well-framed ACK yields exactly the ACK, within
one loop iteration per chunk. -/
theorem ack_await_resync_run (cap : Nat) (tfs : List (List Nat))
    (ack : List Nat) (fuel : Nat)
    (htfs : ∀ tf ∈ tfs, tf.take 4 = LD2450_DATA_FRAME_HEADER ∧
      4 ≤ tf.length ∧ tf.length ≤ cap)
    (hh : ack.take 4 = LD2450_CONFIG_FRAME_HEADER)
    (hf : ack.drop (ack.length - 4) = LD2450_CONFIG_FRAME_FOOTER)
    (hl : 12 ≤ ack.length) (hc : ack.length ≤ cap)
    (hfuel : tfs.length < fuel) :
    ld2450_ack_await cap fuel (tfs ++ [ack]) [] false = (true, ack) := by
  induction tfs generalizing fuel with
  | nil =>
    cases fuel with
    | zero => omega
    | succ f =>
      simp only [List.nil_append]
      unfold ld2450_ack_await
      rw [if_neg (show ¬ cap ≤ ([] : List Nat).length by
        simp only [List.length_nil]; omega)]
      simp only [resync_ack_complete cap ack hh hf hl hc]
  | cons tf rest ih =>
    cases fuel with
    | zero => simp at hfuel
    | succ f =>
      have h1 := htfs tf (by simp)
      simp only [List.cons_append]
      unfold ld2450_ack_await
      rw [if_neg (show ¬ cap ≤ ([] : List Nat).length by
        simp only [List.length_nil]; omega)]
      simp only [resync_telemetry_reset cap tf h1.1 h1.2.1 h1.2.2]
      exact ih f (fun t ht => htfs t (List.mem_cons_of_mem tf ht))
        (by simp only [List.length_cons] at hfuel; omega)

/-- C1: for every stream of complete telemetry frames followed by one
well-formed configuration ACK frame (delivered one frame per UART
event, each within the accumulation capacity), the ACK-await loop
discards every telemetry frame by resetting the accumulation buffer to
empty, and the transaction succeeds before the deadline returning
exactly the ACK frame's bytes. -/
theorem c1_resynchronizes_telemetry_then_ack (cap err_cap fuel : Nat)
    (tfs : List (List Nat)) (ack : List Nat) (cmd : Nat) (prev : List Nat)
    (htfs : ∀ tf ∈ tfs, tf.take 4 = LD2450_DATA_FRAME_HEADER ∧
      4 ≤ tf.length ∧ tf.length ≤ cap)
    (hvalid : ld2450_validate_ack ack cmd = .ESP_OK)
    (hcap : ack.length ≤ cap)
    (hfuel : tfs.length < fuel) :
    ld2450_send_command true true cap err_cap fuel (tfs ++ [ack]) cmd prev =
      ⟨.ESP_OK, some ack, prev, false⟩ ∧
    (∀ tf ∈ tfs, resyncProcessChunk cap [] false tf = (none, [], false)) := by
  obtain ⟨h14, hh, hf, -, -, -, -⟩ := validate_ok_facts ack cmd hvalid
  have hrun := ack_await_resync_run cap tfs ack fuel htfs hh hf (by omega) hcap hfuel
  refine ⟨?_, fun tf htf => ?_⟩
  · unfold ld2450_send_command
    rw [hrun]
    simp [hvalid]
  · have h1 := htfs tf htf
    exact resync_telemetry_reset cap tf h1.1 h1.2.1 h1.2.2

/-- C1 witness: two telemetry frames then a valid 14-byte ACK, with
capacity 64 and a three-iteration deadline. -/
theorem c1_witness :
    ld2450_send_command true true 64 16 3
        ([telemetryFrame, telemetryFrame] ++ [goodAck]) 0x1FF [] =
      ⟨.ESP_OK, some goodAck, [], false⟩ ∧
    (∀ tf ∈ [telemetryFrame, telemetryFrame],
      resyncProcessChunk 64 [] false tf = (none, [], false)) :=
  c1_resynchronizes_telemetry_then_ack 64 16 3 [telemetryFrame, telemetryFrame]
    goodAck 0x1FF [] (by decide) (by decide) (by decide) (by decide)

@[simp]
theorem sendsOf_nil : sendsOf [] = [] := rfl

@[simp]
theorem sendsOf_cons_send (c : ld2450_cmd_t) (t : Nat) (tr : List Action) :
    sendsOf (.send c t :: tr) = c :: sendsOf tr := rfl

@[simp]
theorem sendsOf_cons_delay (k : DelayKind) (tr : List Action) :
    sendsOf (.delay k :: tr) = sendsOf tr := rfl

@[simp]
theorem sendsOf_cons_flush (tr : List Action) :
    sendsOf (.flush :: tr) = sendsOf tr := rfl

@[simp]
theorem sendsOf_append (a b : List Action) :
    sendsOf (a ++ b) = sendsOf a ++ sendsOf b := by
  simp [sendsOf]

/-- C3: for the bracketed operation `ld2450_set_tracking_mode` started
from normal mode: if the enter step fails, the body transaction is
never attempted (only ENABLE_CONFIG is on the wire) and enter's error
is reported; if enter succeeds and the body fails, the body's error is
reported whatever the exit outcome; if enter and body succeed, the
exit transaction's result is reported — in particular a failing exit's
error. -/
theorem c3_bracket_error_precedence (dev : Device)
    (mode : ld2450_tracking_mode_t) :
    ((dev.respond 0).1 ≠ .ESP_OK →
      (ld2450_set_tracking_mode dev mode initialState).1 = (dev.respond 0).1 ∧
      sends (ld2450_set_tracking_mode dev mode initialState).2 =
        [.ENABLE_CONFIG]) ∧
    ((dev.respond 0).1 = .ESP_OK → (dev.respond 1).1 ≠ .ESP_OK →
      (ld2450_set_tracking_mode dev mode initialState).1 = (dev.respond 1).1) ∧
    ((dev.respond 0).1 = .ESP_OK → (dev.respond 1).1 = .ESP_OK →
      (ld2450_set_tracking_mode dev mode initialState).1 = (dev.respond 2).1) := by
  refine ⟨fun h0 => ?_, fun h0 h1 => ?_, fun h0 h1 => ?_⟩
  · simp [ld2450_set_tracking_mode, ld2450_enter_config_mode, initialState,
      sends, h0]
  · simp [ld2450_set_tracking_mode, ld2450_enter_config_mode,
      ld2450_exit_config_mode, initialState, sends, h0, h1]
  · simp [ld2450_set_tracking_mode, ld2450_enter_config_mode,
      ld2450_exit_config_mode, initialState, sends, h0, h1]
    split_ifs <;> rfl

/-- C3 witness: with an all-acknowledging device, the reported result
is the exit transaction's result. -/
theorem c3_witness :
    (ld2450_set_tracking_mode devAllOk .LD2450_MODE_SINGLE_TARGET
      initialState).1 = (devAllOk.respond 2).1 :=
  (c3_bracket_error_precedence devAllOk .LD2450_MODE_SINGLE_TARGET).2.2 rfl rfl

/-- C7: for `ld2450_restart_module` started from normal mode: after a
successful RESTART_MODULE transaction no END_CONFIG transaction is
attempted, the gate's mode is forced to NORMAL locally after the
restart settle delay, and the operation succeeds; after a failed
RESTART_MODULE transaction a normal exit (an END_CONFIG transaction)
is attempted instead and the restart failure is reported. -/
theorem c7_restart_skips_end_config (dev : Device) :
    ((dev.respond 0).1 = .ESP_OK → (dev.respond 1).1 = .ESP_OK →
      ld2450_restart_module dev initialState =
        (.ESP_OK, ⟨false,
          [.delay .configEnterSettle, .flush,
           .send .ENABLE_CONFIG LD2450_CONFIG_TIMEOUT_MS,
           .send .RESTART_MODULE LD2450_CONFIG_TIMEOUT_MS,
           .delay .restartSettle]⟩)) ∧
    ((dev.respond 0).1 = .ESP_OK → (dev.respond 1).1 ≠ .ESP_OK →
      (ld2450_restart_module dev initialState).1 = (dev.respond 1).1 ∧
      sends (ld2450_restart_module dev initialState).2 =
        [.ENABLE_CONFIG, .RESTART_MODULE, .END_CONFIG]) := by
  refine ⟨fun h0 h1 => ?_, fun h0 h1 => ?_⟩
  · simp [ld2450_restart_module, ld2450_enter_config_mode, initialState,
      sends, h0, h1]
  · simp [ld2450_restart_module, ld2450_enter_config_mode,
      ld2450_exit_config_mode, initialState, sends, h0, h1]
    split_ifs <;> simp [sendsOf]

/-- C7 witness: with an all-acknowledging device the restart succeeds,
leaves NORMAL mode, and the wire carries no END_CONFIG. -/
theorem c7_witness :
    ld2450_restart_module devAllOk initialState =
      (.ESP_OK, ⟨false,
        [.delay .configEnterSettle, .flush,
         .send .ENABLE_CONFIG LD2450_CONFIG_TIMEOUT_MS,
         .send .RESTART_MODULE LD2450_CONFIG_TIMEOUT_MS,
         .delay .restartSettle]⟩) :=
  (c7_restart_skips_end_config devAllOk).1 rfl rfl

/-- An acknowledged transaction stays acknowledged when the trace
grows. -/
theorem ackedSend_mono (dev : Device) (st : GateState) (b : Bool)
    (extra : List Action) (c : ld2450_cmd_t) (h : ackedSend dev st c) :
    ackedSend dev ⟨b, st.trace ++ extra⟩ c := by
  obtain ⟨n, hn, hok⟩ := h
  refine ⟨n, ?_, hok⟩
  have hlt : n < (sendsOf st.trace).length := (List.getElem?_eq_some.mp hn).1
  show (sendsOf (st.trace ++ extra))[n]? = some c
  rw [sendsOf_append, List.getElem?_append_left hlt]
  exact hn

/-- A transaction appended to the trace and acknowledged by the device
is an acknowledged transaction of the new state. -/
theorem ackedSend_new (dev : Device) (st : GateState) (b : Bool)
    (extra : List Action) (c : ld2450_cmd_t) (hex : sendsOf extra = [c])
    (hok : (dev.respond (sends st).length).1 = .ESP_OK) :
    ackedSend dev ⟨b, st.trace ++ extra⟩ c := by
  refine ⟨(sends st).length, ?_, hok⟩
  show (sendsOf (st.trace ++ extra))[(sends st).length]? = some c
  rw [sendsOf_append, hex]
  exact List.getElem?_concat_length _ _

/-- Inversion for an acknowledged transaction after appending a suffix
carrying a single command: it is either an old acknowledged
transaction or the new one. -/
theorem ackedSend_snoc_elim (dev : Device) (st : GateState) (b : Bool)
    (extra : List Action) (c c₀ : ld2450_cmd_t) (hex : sendsOf extra = [c₀])
    (h : ackedSend dev ⟨b, st.trace ++ extra⟩ c) :
    ackedSend dev st c ∨
      (c₀ = c ∧ (dev.respond (sends st).length).1 = .ESP_OK) := by
  obtain ⟨n, hn, hok⟩ := h
  have hn' : (sendsOf st.trace ++ [c₀])[n]? = some c := by
    rw [← hex, ← sendsOf_append]
    exact hn
  rcases Nat.lt_trichotomy n (sendsOf st.trace).length with hlt | heq | hgt
  · left
    refine ⟨n, ?_, hok⟩
    rw [List.getElem?_append_left hlt] at hn'
    exact hn'
  · right
    subst heq
    rw [List.getElem?_concat_length] at hn'
    injection hn' with hc
    exact ⟨hc, hok⟩
  · exfalso
    rw [List.getElem?_eq_none (by
      simp only [List.length_append, List.length_singleton]
      omega)] at hn'
    cases hn'

/-- `ld2450_enter_config_mode` preserves the gate's acknowledgment
invariant. -/
theorem enter_preserves_inv (dev : Device) (st : GateState)
    (h : gateInv dev st) : gateInv dev (ld2450_enter_config_mode dev st).2 := by
  unfold ld2450_enter_config_mode
  by_cases hm : st.in_config_mode = true
  · simp only [hm, if_true]
    exact h
  · have hm' : st.in_config_mode = false := by
      revert hm
      cases st.in_config_mode <;> simp
    by_cases hr : (dev.respond (sends st).length).1 = .ESP_OK
    · simp only [hm', Bool.false_eq_true, if_false, hr, if_true]
      constructor
      · intro _
        exact ackedSend_new dev st true _ .ENABLE_CONFIG rfl hr
      · intro hfalse
        cases hfalse
    · simp only [hm', Bool.false_eq_true, if_false, if_neg hr]
      constructor
      · intro hfalse
        cases hfalse
      · intro _
        rcases h.2 hm' with hend | hnen
        · exact Or.inl (ackedSend_mono dev st false _ .END_CONFIG hend)
        · refine Or.inr fun hnew => ?_
          rcases ackedSend_snoc_elim dev st false
              [.delay .configEnterSettle, .flush,
               .send .ENABLE_CONFIG LD2450_CONFIG_TIMEOUT_MS]
              .ENABLE_CONFIG .ENABLE_CONFIG rfl hnew with hold | ⟨-, hok⟩
          · exact hnen hold
          · exact hr hok

/-- `ld2450_exit_config_mode` preserves the gate's acknowledgment
invariant. -/
theorem exit_preserves_inv (dev : Device) (st : GateState)
    (h : gateInv dev st) : gateInv dev (ld2450_exit_config_mode dev st).2 := by
  unfold ld2450_exit_config_mode
  by_cases hm : st.in_config_mode = false
  · simp only [hm, if_true]
    exact h
  · have hm' : st.in_config_mode = true := by
      revert hm
      cases st.in_config_mode <;> simp
    by_cases hr : (dev.respond (sends st).length).1 = .ESP_OK
    · simp only [hm', Bool.true_eq_false, if_false, hr, if_true]
      constructor
      · intro hfalse
        cases hfalse
      · intro _
        exact Or.inl (ackedSend_new dev st false _ .END_CONFIG rfl hr)
    · simp only [hm', Bool.true_eq_false, if_false, if_neg hr]
      constructor
      · intro _
        exact ackedSend_mono dev st true _ .ENABLE_CONFIG (h.1 hm')
      · intro hfalse
        cases hfalse

/-- Any sequence of gate calls preserves the acknowledgment
invariant. -/
theorem runCalls_preserves_inv (dev : Device) (evs : List CallEv) :
    ∀ st : GateState, gateInv dev st → gateInv dev (runCalls dev evs st) := by
  induction evs with
  | nil => exact fun st h => h
  | cons e rest ih =>
    intro st h
    cases e with
    | enterCall => exact ih _ (enter_preserves_inv dev st h)
    | exitCall => exact ih _ (exit_preserves_inv dev st h)

/-- The initial session state satisfies the acknowledgment
invariant. -/
theorem gateInv_initial (dev : Device) : gateInv dev initialState := by
  constructor
  · intro hfalse
    cases hfalse
  · intro _
    refine Or.inr fun hnew => ?_
    obtain ⟨n, hn, -⟩ := hnew
    simp [sends, sendsOf, initialState] at hn

/-- C4: the config-mode flag is an invariant of acknowledgment.
`enter` is a no-op success when already CONFIGURING; a failed
ENABLE_CONFIG transaction leaves the flag NORMAL (the intent is
reverted); `exit` is a no-op success when already NORMAL; a failed
END_CONFIG transaction leaves the flag CONFIGURING; and after any
sequence of enter/exit calls from the initial state, the gate claims
CONFIGURING only if the device acknowledged an ENABLE_CONFIG
transaction and claims NORMAL only if an END_CONFIG transaction was
acknowledged or no ENABLE_CONFIG was ever acknowledged. -/
theorem c4_gate_acknowledgment_invariant :
    (∀ (dev : Device) (st : GateState), st.in_config_mode = true →
      ld2450_enter_config_mode dev st = (.ESP_OK, st)) ∧
    (∀ (dev : Device) (st : GateState), st.in_config_mode = false →
      (dev.respond (sends st).length).1 ≠ .ESP_OK →
      (ld2450_enter_config_mode dev st).2.in_config_mode = false) ∧
    (∀ (dev : Device) (st : GateState), st.in_config_mode = false →
      ld2450_exit_config_mode dev st = (.ESP_OK, st)) ∧
    (∀ (dev : Device) (st : GateState), st.in_config_mode = true →
      (dev.respond (sends st).length).1 ≠ .ESP_OK →
      (ld2450_exit_config_mode dev st).2.in_config_mode = true) ∧
    (∀ (dev : Device) (evs : List CallEv),
      gateInv dev (runCalls dev evs initialState)) := by
  refine ⟨?_, ?_, ?_, ?_, ?_⟩
  · intro dev st h
    simp [ld2450_enter_config_mode, h]
  · intro dev st h hr
    simp [ld2450_enter_config_mode, h, hr]
  · intro dev st h
    simp [ld2450_exit_config_mode, h]
  · intro dev st h hr
    simp [ld2450_exit_config_mode, h, hr]
  · intro dev evs
    exact runCalls_preserves_inv dev evs initialState (gateInv_initial dev)

/-- C4 witness: a redundant `enter` is a no-op success, and after one
acknowledged `enter` from the initial state the CONFIGURING claim is
backed by an acknowledged ENABLE_CONFIG transaction. -/
theorem c4_witness :
    ld2450_enter_config_mode devAllOk ⟨true, []⟩ = (.ESP_OK, ⟨true, []⟩) ∧
    ackedSend devAllOk (runCalls devAllOk [.enterCall] initialState)
      .ENABLE_CONFIG :=
  ⟨c4_gate_acknowledgment_invariant.1 devAllOk ⟨true, []⟩ rfl,
   (c4_gate_acknowledgment_invariant.2.2.2.2 devAllOk [.enterCall]).1
     (by decide)⟩

/-- C8 counterexample: with a transport that times out on attempts 1
and 2 and delivers on attempt 3 a valid ACK whose main-version bytes
are `01 02` (offsets 12-13) and sub-version bytes are `16 24 06 22`,
the call succeeds but the version string is "V2.01.570827798", not
"V1.02": the little-endian main version is 0x0201, whose high byte 2
is printed before the dot, and the code appends the sub-version in
decimal. -/
theorem c8_counterexample :
    (ld2450_get_firmware_version devFw initialState).1 = .ESP_OK ∧
    (ld2450_get_firmware_version devFw initialState).2.1 =
      some ⟨0x0201, 0x22062416, "V2.01.570827798"⟩ ∧
    "V2.01.570827798" ≠ "V1.02" := by
  refine ⟨by decide, by decide, by decide⟩

/-- C8 (amended): the firmware-version read attempts the
READ_FW_VERSION transaction up to 3 times with a 1000 ms timeout
(shorter than the 3000 ms standard configuration timeout), with a
backoff delay and input flush between attempts; the first successful
attempt short-circuits the loop and its payload is parsed — in
particular, with a transport that times out on attempts 1 and 2 and
returns on attempt 3 a valid ACK whose main-version bytes are `01 02`
and sub-version bytes are `16 24 06 22`, the call succeeds with main
version 0x0201, version string "V2.01.570827798" and sub-version
0x22062416. -/
theorem c8_fw_retry_parses_third_attempt (dev : Device) (ack : List Nat)
    (h0 : (dev.respond 0).1 = .ESP_OK)
    (h1 : (dev.respond 1).1 = .ESP_ERR_TIMEOUT)
    (h2 : (dev.respond 2).1 = .ESP_ERR_TIMEOUT)
    (h3 : dev.respond 3 = (.ESP_OK, ack))
    (hlen : 22 ≤ ack.length)
    (h12 : ack.getD 12 0 = 0x01) (h13 : ack.getD 13 0 = 0x02)
    (h14 : ack.getD 14 0 = 0x16) (h15 : ack.getD 15 0 = 0x24)
    (h16 : ack.getD 16 0 = 0x06) (h17 : ack.getD 17 0 = 0x22)
    (h4 : (dev.respond 4).1 = .ESP_OK) :
    ld2450_get_firmware_version dev initialState =
      (.ESP_OK, some ⟨0x0201, 0x22062416, "V2.01.570827798"⟩,
       ⟨false, [.delay .configEnterSettle, .flush,
         .send .ENABLE_CONFIG LD2450_CONFIG_TIMEOUT_MS,
         .delay .fwExtraSettle, .flush,
         .send .READ_FW_VERSION 1000, .delay .fwRetryBackoff, .flush,
         .send .READ_FW_VERSION 1000, .delay .fwRetryBackoff, .flush,
         .send .READ_FW_VERSION 1000,
         .send .END_CONFIG LD2450_CONFIG_TIMEOUT_MS]⟩) ∧
    1000 < LD2450_CONFIG_TIMEOUT_MS := by
  have hparse : parse_fw_version ack =
      ⟨0x0201, 0x22062416, "V2.01.570827798"⟩ := by
    unfold parse_fw_version
    rw [h12, h13, h14, h15, h16, h17]
    decide
  refine ⟨?_, by decide⟩
  simp [ld2450_get_firmware_version, ld2450_enter_config_mode,
    ld2450_exit_config_mode, fw_attempts, initialState, sends,
    h0, h1, h2, h3, hlen, h4, hparse]

/-- C8 witness: the amended claim at the concrete device `devFw` and
ACK `fwAck`. -/
theorem c8_witness :
    ld2450_get_firmware_version devFw initialState =
      (.ESP_OK, some ⟨0x0201, 0x22062416, "V2.01.570827798"⟩,
       ⟨false, [.delay .configEnterSettle, .flush,
         .send .ENABLE_CONFIG LD2450_CONFIG_TIMEOUT_MS,
         .delay .fwExtraSettle, .flush,
         .send .READ_FW_VERSION 1000, .delay .fwRetryBackoff, .flush,
         .send .READ_FW_VERSION 1000, .delay .fwRetryBackoff, .flush,
         .send .READ_FW_VERSION 1000,
         .send .END_CONFIG LD2450_CONFIG_TIMEOUT_MS]⟩) ∧
    1000 < LD2450_CONFIG_TIMEOUT_MS :=
  c8_fw_retry_parses_third_attempt devFw fwAck rfl rfl rfl rfl
    (by decide) (by decide) (by decide) (by decide) (by decide)
    (by decide) (by decide) rfl

end LD2450
